import Mathlib

/-!
Shallow embedding of the inbound-call webhook pipeline and the SIP user-agent
supervisor of telephony_service.py (repository neurosfera_py), together with
theorems settling the specification claims about them.

Modelling conventions:
* Machine-level effects (HTTP requests, file writes, process spawns, control
  commands, log lines) are recorded as values of `Event`, in the order the
  handler performs them.
* Python exceptions that the source does not catch are values of `PyErr`; one
  webhook invocation returns the event trace emitted so far together with
  either `Except.ok ()` (the `JSONResponse ok true` of line 202) or the
  exception that escaped to the framework.
* The outside world (which HTTP calls succeed, which files and binaries
  exist, how long the recorder process runs) is a record `Env`, fixed for the
  duration of one invocation.
* JSON payload objects are association lists of string key/value pairs;
  `pGet`, `truthy`, `pyOr` and `pyStr` mirror Python dict.get, truthiness of
  optional strings, the short-circuiting `or` operator, and f-string
  rendering of `None`.
-/

namespace Telephony

/-- Python exceptions that can escape the modelled code. -/
inductive PyErr where
  | httpException401
  | runtimeErrorNoTTSKey
  | ttsHttpStatusError
  | popenFileNotFound
  | recFileNotFound
  | sttHttpStatusError
  | tgNetworkError
  | unboundLocalError
  deriving DecidableEq, Repr

/-- Observable actions of one webhook invocation, in execution order.
`tgSendCall` and `tgDocCall` mark the invocation of `tg_send` and
`tg_send_document`; `tgPost` and `tgDocPost` mark the HTTP request those
helpers make once they see a configured chat (lines 59 and 65). -/
inductive Event where
  | ttsRequest (text : String)
  | ttsWriteFile
  | auplayCmd
  | logAuplayFailed
  | spawnRecorder (secs : Nat)
  | tgSendCall (msg : String)
  | tgPost (msg : String)
  | recordWait (timeoutSecs : Nat)
  | recordKill
  | sttRequest
  | tgDocCall
  | tgDocPost
  deriving DecidableEq, Repr

/-- Configuration and outside-world behaviour for one webhook invocation.
`beelineApiToken`, `openaiApiKey`, `geminiApiKey` are the environment values
of lines 42-44 (empty string models an unset/falsy value, as in Python);
`ttsEngine`, `sttEngine`, `stubText`, `recordSeconds` come from the ini
configuration (lines 31-35); `nowStr` is the strftime value of line 191;
`telegramConfigured` is the conjunction of lines 59/65 (bot token and chat id
both truthy).  The Bool fields say which external operations succeed:
`ttsHttpOk` / `sttHttpOk` model `r.raise_for_status()` (lines 125 and 143),
`fifoExists` the check of line 111, `ffmpegExists` whether the Popen of line
131 finds the executable, `recorderRuntime` the seconds until the ffmpeg
process exits on its own, `recFileExists` whether the recording file exists
afterwards (lines 141 and 200), `tgNetworkOk` whether the Telegram posts of
lines 62/70 go through, and `sttText` the text field of the Whisper
response (line 144). -/
structure Env where
  beelineApiToken : String
  openaiApiKey : String
  geminiApiKey : String
  ttsEngine : String
  sttEngine : String
  stubText : String
  recordSeconds : Nat
  nowStr : String
  ttsHttpOk : Bool
  fifoExists : Bool
  ffmpegExists : Bool
  recorderRuntime : Nat
  recFileExists : Bool
  sttHttpOk : Bool
  sttText : String
  telegramConfigured : Bool
  tgNetworkOk : Bool
  deriving DecidableEq, Repr

/-- JSON object payloads, modelled as string-keyed association lists. -/
abbrev Payload := List (String × String)

/-- Python dict.get: the value stored at the key, or None. -/
def pGet (p : Payload) (k : String) : Option String :=
  (p.find? (fun kv => kv.1 == k)).map (fun kv => kv.2)

/-- Python truthiness of an optional string: None and "" are falsy. -/
def truthy : Option String → Bool
  | none => false
  | some s => s != ""

/-- Python `a or b` on optional strings. -/
def pyOr (a b : Option String) : Option String :=
  if truthy a then a else b

/-- Python str() as applied by f-string interpolation: None prints as "None". -/
def pyStr : Option String → String
  | none => "None"
  | some s => s

/-- Line 184: `payload.get("caller") or payload.get("from") or payload.get("ani")`. -/
def callerOf (p : Payload) : Option String :=
  pyOr (pGet p "caller") (pyOr (pGet p "from") (pGet p "ani"))

/-- Line 185: `payload.get("callee") or payload.get("to") or payload.get("dnis")`. -/
def calleeOf (p : Payload) : Option String :=
  pyOr (pGet p "callee") (pyOr (pGet p "to") (pGet p "dnis"))

/-- Line 186: `payload.get("ts") or payload.get("timestamp")`. -/
def tsOf (p : Payload) : Option String :=
  pyOr (pGet p "ts") (pGet p "timestamp")

/-- Lines 187-192: the f-string summary.  A missing caller/callee renders as
"None"; a falsy `ts` falls back to the current wall-clock time `nowStr`. -/
def summaryMsg (env : Env) (p : Payload) : String :=
  "<b>Входящий вызов</b>\n<b>От:</b> <code>" ++ pyStr (callerOf p) ++
  "</code>\n<b>Кому:</b> <code>" ++ pyStr (calleeOf p) ++
  "</code>\n<b>Время:</b> <code>" ++ pyStr (pyOr (tsOf p) (some env.nowStr)) ++ "</code>"

/-- Line 193: `json.dumps(payload, ensure_ascii=False, indent=2)`. -/
def jsonDumps (p : Payload) : String :=
  match p with
  | [] => "\x7b\x7d"
  | _ => "\x7b\n" ++
      String.intercalate ",\n"
        (p.map (fun kv => "  \"" ++ kv.1 ++ "\": \"" ++ kv.2 ++ "\"")) ++
      "\n\x7d"

/-- Line 194: the first Telegram message, summary plus raw payload dump. -/
def msg1 (env : Env) (p : Payload) : String :=
  summaryMsg env p ++ "\n\n<pre>" ++ jsonDumps p ++ "</pre>"

/-- Line 199: the transcript message. -/
def transcriptMsg (text : String) : String :=
  "📝 <b>Транскрипт абонента</b>:\n<pre>" ++ text ++ "</pre>"

/-- Sequencing of traced fallible steps: an uncaught exception stops the
pipeline, keeping the events already emitted. -/
def andThen {α β : Type} (a : List Event × Except PyErr α)
    (k : α → List Event × Except PyErr β) : List Event × Except PyErr β :=
  match a with
  | (tr, Except.error e) => (tr, Except.error e)
  | (tr, Except.ok x) => (tr ++ (k x).1, (k x).2)

/-- Lines 115-126, tts_to_wav.  The gemini branch (117-119) is a `pass` and
has no effect.  With no OPENAI_API_KEY a RuntimeError is raised (line 120);
otherwise the OpenAI speech request is issued and either
`r.raise_for_status()` throws (line 125) or the wav file is written
(line 126). -/
def tts_to_wav (env : Env) (text : String) : List Event × Except PyErr Unit :=
  if env.openaiApiKey = "" then ([], Except.error PyErr.runtimeErrorNoTTSKey)
  else if env.ttsHttpOk then
    ([Event.ttsRequest text, Event.ttsWriteFile], Except.ok ())
  else ([Event.ttsRequest text], Except.error PyErr.ttsHttpStatusError)

/-- Lines 178-179: `try: auplay(tts_wav) except Exception: logging.exception`.
auplay (lines 110-113) raises if the baresip FIFO is missing, and that
exception is caught and logged; otherwise the auplay command is written to
the FIFO.  Never propagates an exception. -/
def auplayCaught (env : Env) : List Event × Except PyErr Unit :=
  ((if env.fifoExists then [Event.auplayCmd] else [Event.logAuplayFailed]),
   Except.ok ())

/-- Lines 128-131, start_record, called at line 182: spawns the ffmpeg
capture process.  `subprocess.Popen` raises FileNotFoundError when the
executable is missing; the call site does not catch it. -/
def start_record (env : Env) : List Event × Except PyErr Unit :=
  if env.ffmpegExists then
    ([Event.spawnRecorder env.recordSeconds], Except.ok ())
  else ([], Except.error PyErr.popenFileNotFound)

/-- Lines 58-62, tg_send: returns immediately when bot token or chat id is
unset; otherwise posts to the Telegram API (a transport failure there is an
uncaught exception at the call sites of lines 194 and 199). -/
def tg_send (env : Env) (msg : String) : List Event × Except PyErr Unit :=
  (Event.tgSendCall msg ::
     (if env.telegramConfigured then [Event.tgPost msg] else []),
   if env.telegramConfigured && !env.tgNetworkOk then
     Except.error PyErr.tgNetworkError
   else Except.ok ())

/-- subprocess wait with a timeout: returns the elapsed seconds and whether
TimeoutExpired was raised. -/
def procWait (runtime timeout : Nat) : Nat × Bool :=
  if runtime ≤ timeout then (runtime, false) else (timeout, true)

/-- Lines 196-197: `try: p.wait(timeout=RECORD_SECONDS+5)
except subprocess.TimeoutExpired: p.kill()`.  Never propagates. -/
def waitRecording (env : Env) : List Event × Except PyErr Unit :=
  (Event.recordWait (env.recordSeconds + 5) ::
     (if (procWait env.recorderRuntime (env.recordSeconds + 5)).2 then
        [Event.recordKill]
      else []),
   Except.ok ())

/-- Line 144: the transcript text actually returned on HTTP success,
`(r.json().get("text") or "").strip() or "(пусто)"`. -/
def sttResultText (env : Env) : String :=
  if env.sttText.trim = "" then "(пусто)" else env.sttText.trim

/-- Lines 133-144, stt_from_wav.  The gemini branch (134-136) is a `pass`.
With no OPENAI_API_KEY the placeholder is returned (line 137).  Otherwise
`wav.open("rb")` (line 141) raises FileNotFoundError when the recording file
does not exist; else the Whisper request is made and either
`r.raise_for_status()` throws or the stripped text (or the non-empty
placeholder) is returned (lines 143-144). -/
def stt_from_wav (env : Env) : List Event × Except PyErr String :=
  if env.openaiApiKey = "" then ([], Except.ok "(no OPENAI_API_KEY; skip STT)")
  else if !env.recFileExists then ([], Except.error PyErr.recFileNotFound)
  else if env.sttHttpOk then ([Event.sttRequest], Except.ok (sttResultText env))
  else ([Event.sttRequest], Except.error PyErr.sttHttpStatusError)

/-- Lines 64-70, tg_send_document, called at line 200 under the
`rec.exists()` guard.  Same configuration check and transport behaviour as
tg_send. -/
def tg_send_document (env : Env) : List Event × Except PyErr Unit :=
  (Event.tgDocCall ::
     (if env.telegramConfigured then [Event.tgDocPost] else []),
   if env.telegramConfigured && !env.tgNetworkOk then
     Except.error PyErr.tgNetworkError
   else Except.ok ())

/-- Line 171: `x_api_token != BEELINE_API_TOKEN` where the header may be
absent (None). -/
def pyHeaderNe (hdr : Option String) (tok : String) : Bool :=
  match hdr with
  | none => true
  | some h => h != tok

/-- Line 171: `BEELINE_API_TOKEN and x_api_token != BEELINE_API_TOKEN`. -/
def authRejected (env : Env) (hdr : Option String) : Bool :=
  env.beelineApiToken != "" && pyHeaderNe hdr env.beelineApiToken

/-- Lines 198-201: transcription, the transcript message, and the
conditional document upload, factored out so that the part of the pipeline
after the recording wait can be named. -/
def afterWaitStage (env : Env) : List Event × Except PyErr Unit :=
  andThen (stt_from_wav env) (fun text =>
  andThen (tg_send env (transcriptMsg text)) (fun _ =>
  if env.recFileExists then tg_send_document env else ([], Except.ok ())))

/-- Lines 173-201 after the token check: the call pipeline applied to the
parsed payload. -/
def pipeline (env : Env) (payload : Payload) : List Event × Except PyErr Unit :=
  andThen (tts_to_wav env env.stubText) (fun _ =>
  andThen (auplayCaught env) (fun _ =>
  andThen (start_record env) (fun _ =>
  andThen (tg_send env (msg1 env payload)) (fun _ =>
  andThen (waitRecording env) (fun _ =>
  afterWaitStage env)))))

/-- Lines 169-202, beeline_webhook.  The token check of lines 170-172 runs
first; a rejected request raises HTTPException(401) with no side effect.
Lines 173-174 replace an unparsable JSON body (`body = none`) by the empty
dict.  The pipeline then runs; `Except.ok ()` models the
`JSONResponse ok true` of line 202, and an `Except.error` models a Python
exception escaping the handler to the framework. -/
def beeline_webhook (env : Env) (x_api_token : Option String)
    (body : Option Payload) : List Event × Except PyErr Unit :=
  if authRejected env x_api_token then ([], Except.error PyErr.httpException401)
  else pipeline env (body.getD [])

/-- Does the character list start with the given needle list. -/
def listStartsWith : List Char → List Char → Bool
  | _, [] => true
  | [], _ :: _ => false
  | a :: as, b :: bs => a == b && listStartsWith as bs

/-- Does the character list contain the needle as a contiguous sublist. -/
def listHasSub (needle : List Char) : List Char → Bool
  | [] => needle.isEmpty
  | c :: rest => listStartsWith (c :: rest) needle || listHasSub needle rest

/-- Python substring containment `needle in hay`. -/
def strContains (hay needle : String) : Bool :=
  listHasSub needle.toList hay.toList

/-- Lines 83-89: the block appended to the baresip config file.  Note the
alignment padding: the written directive is `module` followed by eighteen
spaces and `fifo`. -/
def baresipAdditions : String :=
  "\n# --- Neurosfera telephony additions ---\n" ++
  "module                  fifo\n" ++
  "fifo_path               /tmp/baresip_cmd\n" ++
  "call_autoanswer         yes\n" ++
  "audio_player            aufile,alsa,pipewire,portaudio\n" ++
  "auplay_srate            8000\n" ++
  "auplay_channels         1\n"

/-- Lines 78-89, prepare_baresip, acting on the config file content
(`none` = file absent).  `if not BARESIP_CONFIG.exists() or "module fifo"
not in BARESIP_CONFIG.read_text()` appends the additions block; opening in
append mode creates the file when absent. -/
def prepare_baresip (config : Option String) : Option String :=
  match config with
  | none => some baresipAdditions
  | some txt =>
    if strContains txt "module fifo" then some txt
    else some (txt ++ baresipAdditions)

/-- Python local-variable cell: a function-local name is unbound until the
first assignment executes; reading it before that raises UnboundLocalError. -/
inductive PyLocal (α : Type) where
  | unbound
  | bound (v : α)

/-- Reading a Python local variable. -/
def PyLocal.read {α : Type} : PyLocal α → Except PyErr α
  | PyLocal.unbound => Except.error PyErr.unboundLocalError
  | PyLocal.bound v => Except.ok v

/-- Whether /usr/bin/baresip exists (line 94). -/
structure SupervisorWorld where
  baresipBinaryExists : Bool
  deriving DecidableEq, Repr

/-- The module-level state of the supervisor: the global `baresip_proc`
handle of line 76 (a pid stands in for the Popen object). -/
structure SupervisorState where
  baresip_proc : Option Nat
  deriving DecidableEq, Repr

/-- Lines 91-98, start_baresip, with CPython scoping semantics.  The body
assigns `baresip_proc` at line 95 without a `global baresip_proc`
declaration, so the name is a function-local variable throughout the body;
the read at line 93 (`if baresip_proc: return`) therefore occurs before any
assignment to the local and raises UnboundLocalError on every call.  The
result is the (unchanged) module state, the number of processes spawned by
this call, and the outcome.  The two guarded returns and the spawn are kept
to mirror the source; they are unreachable because the first read always
raises. -/
def start_baresip (w : SupervisorWorld) (st : SupervisorState) :
    SupervisorState × Nat × Except PyErr Unit :=
  let localProc : PyLocal (Option Nat) := PyLocal.unbound
  match localProc.read with
  | Except.error e => (st, 0, Except.error e)
  | Except.ok v =>
    if v.isSome then (st, 0, Except.ok ())
    else if !w.baresipBinaryExists then (st, 0, Except.ok ())
    else (st, 1, Except.ok ())

end Telephony

deriving instance DecidableEq for Except

namespace Telephony

theorem andThen_ok {α β : Type} (tr : List Event) (x : α)
    (k : α → List Event × Except PyErr β) :
    andThen (tr, Except.ok x) k = (tr ++ (k x).1, (k x).2) := rfl

theorem andThen_err {α β : Type} (tr : List Event) (e : PyErr)
    (k : α → List Event × Except PyErr β) :
    andThen (tr, Except.error e) k = (tr, Except.error e) := rfl

/-- Branch lemma: a failed token check rejects the request with 401 and an
empty trace. -/
theorem run_auth (env : Env) (hdr : Option String) (body : Option Payload)
    (h : authRejected env hdr = true) :
    beeline_webhook env hdr body = ([], Except.error PyErr.httpException401) := by
  simp [beeline_webhook, h]

/-- Branch lemma: token check passed, OPENAI_API_KEY unset: the RuntimeError
of line 120 escapes before any external action. -/
theorem run_noKey (env : Env) (hdr : Option String) (body : Option Payload)
    (h : authRejected env hdr = false) (hk : env.openaiApiKey = "") :
    beeline_webhook env hdr body = ([], Except.error PyErr.runtimeErrorNoTTSKey) := by
  simp [beeline_webhook, h, pipeline, tts_to_wav, hk, andThen_err]

/-- Branch lemma: token check passed, key present, TTS HTTP failure: the
raise_for_status of line 125 escapes after the TTS request. -/
theorem run_ttsDown (env : Env) (hdr : Option String) (body : Option Payload)
    (h : authRejected env hdr = false) (hk : env.openaiApiKey ≠ "")
    (ht : env.ttsHttpOk = false) :
    beeline_webhook env hdr body =
      ([Event.ttsRequest env.stubText], Except.error PyErr.ttsHttpStatusError) := by
  simp [beeline_webhook, h, pipeline, tts_to_wav, hk, ht, andThen_err]

/-- Branch lemma: synthesis and playback done, ffmpeg missing: the Popen of
line 131 raises FileNotFoundError and the handler dies before any
notification. -/
theorem run_noFfmpeg (env : Env) (hdr : Option String) (body : Option Payload)
    (h : authRejected env hdr = false) (hk : env.openaiApiKey ≠ "")
    (ht : env.ttsHttpOk = true) (hf : env.ffmpegExists = false) :
    beeline_webhook env hdr body =
      ([Event.ttsRequest env.stubText, Event.ttsWriteFile] ++
         (if env.fifoExists then [Event.auplayCmd] else [Event.logAuplayFailed]),
       Except.error PyErr.popenFileNotFound) := by
  simp [beeline_webhook, h, pipeline, tts_to_wav, hk, ht, auplayCaught,
    start_record, hf, andThen_ok, andThen_err]

/-- Branch lemma: pipeline reached the summary notification with Telegram
configured but its API unreachable: the post of line 62 raises inside the
await of line 194 and the handler dies before the recording wait. -/
theorem run_tgDown (env : Env) (hdr : Option String) (body : Option Payload)
    (h : authRejected env hdr = false) (hk : env.openaiApiKey ≠ "")
    (ht : env.ttsHttpOk = true) (hf : env.ffmpegExists = true)
    (htg : env.telegramConfigured = true) (hnet : env.tgNetworkOk = false) :
    beeline_webhook env hdr body =
      ([Event.ttsRequest env.stubText, Event.ttsWriteFile] ++
         (if env.fifoExists then [Event.auplayCmd] else [Event.logAuplayFailed]) ++
         [Event.spawnRecorder env.recordSeconds,
          Event.tgSendCall (msg1 env (body.getD [])),
          Event.tgPost (msg1 env (body.getD []))],
       Except.error PyErr.tgNetworkError) := by
  simp [beeline_webhook, h, pipeline, tts_to_wav, hk, ht, auplayCaught,
    start_record, hf, tg_send, htg, hnet, andThen_ok, andThen_err]

/-- Branch lemma: the main path.  When the token check passes, synthesis
succeeds, ffmpeg spawns, and the summary notification does not raise, the
handler reaches the recording wait and continues with `afterWaitStage`. -/
theorem run_main (env : Env) (hdr : Option String) (body : Option Payload)
    (h : authRejected env hdr = false) (hk : env.openaiApiKey ≠ "")
    (ht : env.ttsHttpOk = true) (hf : env.ffmpegExists = true)
    (hsend : (env.telegramConfigured && !env.tgNetworkOk) = false) :
    beeline_webhook env hdr body =
      ([Event.ttsRequest env.stubText, Event.ttsWriteFile] ++
         (if env.fifoExists then [Event.auplayCmd] else [Event.logAuplayFailed]) ++
         [Event.spawnRecorder env.recordSeconds] ++
         Event.tgSendCall (msg1 env (body.getD [])) ::
           ((if env.telegramConfigured then [Event.tgPost (msg1 env (body.getD []))] else []) ++
            Event.recordWait (env.recordSeconds + 5) ::
              ((if (procWait env.recorderRuntime (env.recordSeconds + 5)).2 then
                  [Event.recordKill]
                else []) ++
               (afterWaitStage env).1)),
       (afterWaitStage env).2) := by
  simp [beeline_webhook, h, pipeline, tts_to_wav, hk, ht, auplayCaught,
    start_record, hf, tg_send, hsend, waitRecording, andThen_ok, andThen_err]

/-- Branch lemma: after the wait, the recording file is missing: the open of
line 141 raises FileNotFoundError, so no transcription request, no transcript
message and no document upload happen. -/
theorem afterWait_noFile (env : Env) (hk : env.openaiApiKey ≠ "")
    (hr : env.recFileExists = false) :
    afterWaitStage env = ([], Except.error PyErr.recFileNotFound) := by
  simp [afterWaitStage, stt_from_wav, hk, hr, andThen_err]

/-- Branch lemma: after the wait, the file exists but the Whisper request
fails: raise_for_status of line 143 escapes. -/
theorem afterWait_sttDown (env : Env) (hk : env.openaiApiKey ≠ "")
    (hr : env.recFileExists = true) (hs : env.sttHttpOk = false) :
    afterWaitStage env = ([Event.sttRequest], Except.error PyErr.sttHttpStatusError) := by
  simp [afterWaitStage, stt_from_wav, hk, hr, hs, andThen_err]

/-- Branch lemma: after the wait, transcription succeeds; the transcript
message is sent and, the file existing, the document upload runs. -/
theorem afterWait_main (env : Env) (hk : env.openaiApiKey ≠ "")
    (hr : env.recFileExists = true) (hs : env.sttHttpOk = true)
    (hsend : (env.telegramConfigured && !env.tgNetworkOk) = false) :
    afterWaitStage env =
      (Event.sttRequest ::
         Event.tgSendCall (transcriptMsg (sttResultText env)) ::
           ((if env.telegramConfigured then
               [Event.tgPost (transcriptMsg (sttResultText env))]
             else []) ++
            Event.tgDocCall ::
              (if env.telegramConfigured then [Event.tgDocPost] else [])),
       Except.ok ()) := by
  simp [afterWaitStage, stt_from_wav, hk, hr, hs, tg_send, tg_send_document,
    hsend, andThen_ok, andThen_err]

/-- A fully healthy environment: no auth token configured, OpenAI key
present, every external call succeeding, recorder finishing within its
budget and leaving a file, Telegram configured and reachable. -/
def envGood : Env :=
  { beelineApiToken := "", openaiApiKey := "sk-test", geminiApiKey := "",
    ttsEngine := "openai", sttEngine := "whisper",
    stubText := "Здравствуйте. Телефония временно дорабатывается",
    recordSeconds := 30, nowStr := "2025-01-01 10:00:00",
    ttsHttpOk := true, fifoExists := true, ffmpegExists := true,
    recorderRuntime := 10, recFileExists := true, sttHttpOk := true,
    sttText := "тест", telegramConfigured := true, tgNetworkOk := true }

/-- envGood with the OPENAI_API_KEY unset (synthesis unavailable). -/
def envNoKey : Env := { envGood with openaiApiKey := "" }

/-- envGood with the TTS HTTP call failing. -/
def envTtsDown : Env := { envGood with ttsHttpOk := false }

/-- envGood with the ffmpeg capture tool missing. -/
def envNoFfmpeg : Env := { envGood with ffmpegExists := false }

/-- envGood with the baresip control FIFO missing (playback fails). -/
def envNoFifo : Env := { envGood with fifoExists := false }

/-- envGood with a recorder process outliving the wait bound. -/
def envSlowRec : Env := { envGood with recorderRuntime := 100 }

/-- envGood with the recorder leaving no file behind. -/
def envNoRecFile : Env := { envGood with recFileExists := false }

/-- envGood with an auth token configured. -/
def envTok : Env := { envGood with beelineApiToken := "secret" }

/-- The outcome of one webhook invocation as a function of the environment
alone (proved below to coincide with the run): the first uncaught failure in
program order wins; with none, the ok acknowledgment is returned. -/
def runResult (env : Env) (hdr : Option String) : Except PyErr Unit :=
  if authRejected env hdr then Except.error PyErr.httpException401
  else if env.openaiApiKey = "" then Except.error PyErr.runtimeErrorNoTTSKey
  else if !env.ttsHttpOk then Except.error PyErr.ttsHttpStatusError
  else if !env.ffmpegExists then Except.error PyErr.popenFileNotFound
  else if env.telegramConfigured && !env.tgNetworkOk then
    Except.error PyErr.tgNetworkError
  else if !env.recFileExists then Except.error PyErr.recFileNotFound
  else if !env.sttHttpOk then Except.error PyErr.sttHttpStatusError
  else Except.ok ()

/-- Exhaustive characterization of the handler outcome.  Note it does not
depend on the request body, on the FIFO, or on how long the recorder runs:
playback failure and wait timeout are the only stage failures the source
catches. -/
theorem run_snd (env : Env) (hdr : Option String) (body : Option Payload) :
    (beeline_webhook env hdr body).2 = runResult env hdr := by
  by_cases h : authRejected env hdr = true
  · rw [run_auth env hdr body h]; simp [runResult, h]
  · have h0 : authRejected env hdr = false := by simpa using h
    by_cases hk : env.openaiApiKey = ""
    · rw [run_noKey env hdr body h0 hk]; simp [runResult, h0, hk]
    · cases ht : env.ttsHttpOk with
      | false => rw [run_ttsDown env hdr body h0 hk ht]; simp [runResult, h0, hk, ht]
      | true =>
        cases hf : env.ffmpegExists with
        | false =>
          rw [run_noFfmpeg env hdr body h0 hk ht hf]
          simp [runResult, h0, hk, ht, hf]
        | true =>
          cases hs : env.telegramConfigured && !env.tgNetworkOk with
          | true =>
            obtain ⟨htg, hnet⟩ : env.telegramConfigured = true ∧ env.tgNetworkOk = false := by
              simpa [Bool.and_eq_true, Bool.not_eq_true'] using hs
            rw [run_tgDown env hdr body h0 hk ht hf htg hnet]
            simp [runResult, h0, hk, ht, hf, htg, hnet]
          | false =>
            rw [run_main env hdr body h0 hk ht hf hs]
            cases hr : env.recFileExists with
            | false =>
              rw [afterWait_noFile env hk hr]
              simp [runResult, h0, hk, ht, hf, hs, hr]
            | true =>
              cases hstt : env.sttHttpOk with
              | false =>
                rw [afterWait_sttDown env hk hr hstt]
                simp [runResult, h0, hk, ht, hf, hs, hr, hstt]
              | true =>
                rw [afterWait_main env hk hr hstt hs]
                simp [runResult, h0, hk, ht, hf, hs, hr, hstt]

/-- Helper for C4: once the token check passes, no later stage can produce
the 401 rejection. -/
theorem result_ne_401 (env : Env) (hdr : Option String) (body : Option Payload)
    (h : authRejected env hdr = false) :
    (beeline_webhook env hdr body).2 ≠ Except.error PyErr.httpException401 := by
  rw [run_snd]
  unfold runResult
  rw [h]
  simp only [Bool.false_eq_true, if_false]
  split_ifs <;> simp

/-- C4: if an auth token is configured and the X-Api-Token header does not
equal it (including an absent header), the request is rejected with the
HTTPException(401) of line 172 and the trace is empty — no synthesis, no
recording start, no notification.  If no token is configured, the whole run
is independent of the header and is never the 401 rejection. -/
theorem c4_auth_check (env : Env) (hdr hdr' : Option String) (body : Option Payload) :
    (env.beelineApiToken ≠ "" → pyHeaderNe hdr env.beelineApiToken = true →
       beeline_webhook env hdr body = ([], Except.error PyErr.httpException401))
    ∧ (env.beelineApiToken = "" →
       beeline_webhook env hdr body = beeline_webhook env hdr' body ∧
       (beeline_webhook env hdr body).2 ≠ Except.error PyErr.httpException401) := by
  constructor
  · intro h1 h2
    apply run_auth
    simp [authRejected, h1, h2]
  · intro h0
    have hA : authRejected env hdr = false := by simp [authRejected, h0]
    have hA' : authRejected env hdr' = false := by simp [authRejected, h0]
    exact ⟨by simp [beeline_webhook, hA, hA'], result_ne_401 env hdr body hA⟩

/-- Witness for C4 at concrete inputs: token "secret" with mismatched header
"wrong" is rejected with 401 and an empty trace; with no token configured
the run with no header equals the run with an arbitrary header and is not
the 401 rejection. -/
theorem c4_witness :
    (envTok.beelineApiToken ≠ "" ∧ pyHeaderNe (some "wrong") envTok.beelineApiToken = true ∧
       beeline_webhook envTok (some "wrong") (some []) =
         ([], Except.error PyErr.httpException401))
    ∧ (envGood.beelineApiToken = "" ∧
       beeline_webhook envGood none (some []) = beeline_webhook envGood (some "anything") (some []) ∧
       (beeline_webhook envGood none (some [])).2 ≠ Except.error PyErr.httpException401) :=
  ⟨⟨by decide, by decide,
    (c4_auth_check envTok (some "wrong") none (some [])).1 (by decide) (by decide)⟩,
   ⟨rfl,
    ((c4_auth_check envGood none (some "anything") (some [])).2 rfl).1,
    ((c4_auth_check envGood none (some "anything") (some [])).2 rfl).2⟩⟩

set_option maxRecDepth 100000 in
/-- Counterexample to C6 as stated: for a payload with all fields missing
(the empty dict) the caller is Python None, the summary renders it as the
string "None", and no "unknown" appears anywhere in the summary. -/
theorem c6_counterexample :
    callerOf [] = none ∧ pyStr (callerOf []) = "None" ∧
    strContains (summaryMsg envGood []) "unknown" = false ∧
    strContains (summaryMsg envGood []) "None" = true := by
  refine ⟨rfl, rfl, by decide, by decide⟩

/-- C6 amended: a payload missing caller/callee/timestamp never aborts the
call — the handler outcome is independent of the body — but the missing
fields default to Python None (rendered "None" by the f-string), and a
missing timestamp falls back to the current wall-clock string, not to
"unknown". -/
theorem c6_amended_missing_fields (env : Env) (hdr : Option String)
    (body body' : Option Payload) :
    callerOf [] = none ∧ calleeOf [] = none ∧ tsOf [] = none ∧
    pyStr (callerOf []) = "None" ∧ pyStr (calleeOf []) = "None" ∧
    pyStr (pyOr (tsOf []) (some env.nowStr)) = env.nowStr ∧
    (beeline_webhook env hdr body).2 = (beeline_webhook env hdr body').2 := by
  refine ⟨rfl, rfl, rfl, rfl, rfl, rfl, ?_⟩
  rw [run_snd, run_snd]

/-- C8 (code bug): start_baresip never checks the live handle and never
spawns.  The assignment `baresip_proc = subprocess.Popen(...)` at line 95
lacks a `global baresip_proc` declaration, so the name is function-local for
the whole body and the read at line 93 (`if baresip_proc: return`) raises
UnboundLocalError on every call: the module state is untouched and the spawn
count is 0 for any state, running or not. -/
theorem c8_start_baresip_always_raises (w : SupervisorWorld) (st : SupervisorState) :
    start_baresip w st = (st, 0, Except.error PyErr.unboundLocalError) := rfl

set_option maxRecDepth 100000 in
/-- C9 (code bug): prepare_baresip is not idempotent.  The first call on a
missing config file writes the additions block; the guard of line 81 then
looks for "module fifo" with a single space, but line 84 wrote "module"
padded with many spaces before "fifo", so the guard never matches and a
second call appends the whole block again, changing the file. -/
theorem c9_prepare_baresip_reappends :
    prepare_baresip none = some baresipAdditions ∧
    strContains baresipAdditions "module fifo" = false ∧
    prepare_baresip (prepare_baresip none) =
      some (baresipAdditions ++ baresipAdditions) ∧
    prepare_baresip (prepare_baresip none) ≠ prepare_baresip none := by
  exact ⟨rfl, by decide, by decide, by decide⟩

/-- C10: a request body that is not valid JSON (`body = none`) is replaced
by the empty dict at lines 173-174 and the invocation proceeds exactly as if
an empty JSON object had been posted: same trace, same outcome, hence it is
never rejected for being malformed. -/
theorem c10_invalid_json_runs_pipeline (env : Env) (hdr : Option String) :
    beeline_webhook env hdr none = beeline_webhook env hdr (some []) := rfl

set_option maxRecDepth 100000 in
/-- Counterexample to C1 as stated: with greeting synthesis failing because
OPENAI_API_KEY is unset, the RuntimeError of line 120 escapes the handler —
nothing is logged-and-continued, the trace is empty, and in particular the
recording is never started. -/
theorem c1_counterexample :
    beeline_webhook envNoKey none (some []) = ([], Except.error PyErr.runtimeErrorNoTTSKey) ∧
    Event.spawnRecorder 30 ∉ (beeline_webhook envNoKey none (some [])).1 := by
  exact ⟨by decide, by decide⟩

/-- C1 amended: greeting synthesis failure is not best-effort.  If synthesis
fails (missing OPENAI_API_KEY, or the TTS HTTP request erroring), the
exception propagates out of the handler and recording does not start.  Only
greeting playback is best-effort: with synthesis succeeded and the control
FIFO missing, the playback failure is logged and recording still starts. -/
theorem c1_amended_synthesis_not_best_effort (env : Env) (hdr : Option String)
    (body : Option Payload) (h : authRejected env hdr = false) :
    (env.openaiApiKey = "" →
       beeline_webhook env hdr body = ([], Except.error PyErr.runtimeErrorNoTTSKey))
    ∧ (env.openaiApiKey ≠ "" → env.ttsHttpOk = false →
       beeline_webhook env hdr body =
         ([Event.ttsRequest env.stubText], Except.error PyErr.ttsHttpStatusError))
    ∧ (env.openaiApiKey ≠ "" → env.ttsHttpOk = true → env.ffmpegExists = true →
       env.fifoExists = false →
       Event.logAuplayFailed ∈ (beeline_webhook env hdr body).1 ∧
       Event.spawnRecorder env.recordSeconds ∈ (beeline_webhook env hdr body).1) := by
  refine ⟨fun hk => run_noKey env hdr body h hk,
          fun hk ht => run_ttsDown env hdr body h hk ht,
          fun hk ht hf hfifo => ?_⟩
  cases hs : env.telegramConfigured && !env.tgNetworkOk with
  | true =>
    obtain ⟨htg, hnet⟩ : env.telegramConfigured = true ∧ env.tgNetworkOk = false := by
      simpa [Bool.and_eq_true, Bool.not_eq_true'] using hs
    rw [run_tgDown env hdr body h hk ht hf htg hnet]
    simp [hfifo]
  | false =>
    rw [run_main env hdr body h hk ht hf hs]
    simp [hfifo]

set_option maxRecDepth 100000 in
/-- Witness for C1: at envNoKey the synthesis failure aborts the run with an
empty trace; at envNoFifo the playback failure is logged and the recorder is
spawned. -/
theorem c1_witness :
    (authRejected envNoKey none = false ∧
       beeline_webhook envNoKey none (some []) =
         ([], Except.error PyErr.runtimeErrorNoTTSKey))
    ∧ (authRejected envNoFifo none = false ∧
       Event.logAuplayFailed ∈ (beeline_webhook envNoFifo none (some [])).1 ∧
       Event.spawnRecorder envNoFifo.recordSeconds ∈ (beeline_webhook envNoFifo none (some [])).1) :=
  ⟨⟨by decide,
    (c1_amended_synthesis_not_best_effort envNoKey none (some []) (by decide)).1 (by decide)⟩,
   ⟨by decide,
    (c1_amended_synthesis_not_best_effort envNoFifo none (some []) (by decide)).2.2
      (by decide) (by decide) (by decide) (by decide)⟩⟩

set_option maxRecDepth 100000 in
/-- Counterexample to C2 as stated: an event that passes the token check (no
token is configured) but whose greeting synthesis HTTP request fails does
not get the ok acknowledgment — the raise_for_status error escapes to the
framework instead. -/
theorem c2_counterexample :
    authRejected envTtsDown none = false ∧
    (beeline_webhook envTtsDown none (some [])).2 = Except.error PyErr.ttsHttpStatusError ∧
    (beeline_webhook envTtsDown none (some [])).2 ≠ Except.ok () := by
  exact ⟨by decide, by decide, by decide⟩

/-- C2 amended: once the token check passes, the handler returns the ok
acknowledgment if and only if every fallible uncaught stage succeeds: the
key is present, the TTS request succeeds, ffmpeg spawns, the Telegram posts
succeed whenever Telegram is configured, the recording file exists and the
transcription request succeeds.  Playback failure and the recording-wait
timeout are the only stage failures that do not affect the response. -/
theorem c2_amended_ok_iff_stages_ok (env : Env) (hdr : Option String)
    (body : Option Payload) (h : authRejected env hdr = false) :
    (beeline_webhook env hdr body).2 = Except.ok () ↔
      (env.openaiApiKey ≠ "" ∧ env.ttsHttpOk = true ∧ env.ffmpegExists = true ∧
       (env.telegramConfigured = true → env.tgNetworkOk = true) ∧
       env.recFileExists = true ∧ env.sttHttpOk = true) := by
  rw [run_snd]
  unfold runResult
  rw [h]
  simp only [Bool.false_eq_true, if_false]
  split_ifs with h1 h2 h3 h4 h5 h6 <;>
    simp_all [Bool.not_eq_true', Bool.and_eq_true]

set_option maxRecDepth 100000 in
/-- Witness for C2: in the fully healthy environment the token check passes
and the acknowledgment is returned. -/
theorem c2_witness :
    authRejected envGood none = false ∧
    (beeline_webhook envGood none (some [])).2 = Except.ok () :=
  ⟨by decide,
   (c2_amended_ok_iff_stages_ok envGood none (some []) (by decide)).mpr
     ⟨by decide, by decide, by decide, fun _ => by decide, by decide, by decide⟩⟩

set_option maxRecDepth 100000 in
/-- Counterexample to C5 as stated: with the capture tool missing the Popen
of line 131 raises FileNotFoundError and the handler dies before any
notification: no Telegram send happens at all, and no "(no recording)"
marker is produced (no such string exists in the program). -/
theorem c5_counterexample :
    beeline_webhook envNoFfmpeg none (some []) =
      ([Event.ttsRequest envNoFfmpeg.stubText, Event.ttsWriteFile, Event.auplayCmd],
       Except.error PyErr.popenFileNotFound) ∧
    Event.tgSendCall (msg1 envNoFfmpeg []) ∉ (beeline_webhook envNoFfmpeg none (some [])).1 := by
  exact ⟨by decide, by decide⟩

/-- C5 amended: recording unavailability is fatal, not degraded.  If the
capture tool is missing, the spawn exception propagates before any
notification is sent.  If the recorder runs but leaves no file, the handler
does not skip transcription: it attempts it, the file open of line 141
raises, no transcription request is made, and neither the transcript message
nor the document upload happens (the summary message is the only send). -/
theorem c5_amended_recording_failure_fatal (env : Env) (hdr : Option String)
    (body : Option Payload) (h : authRejected env hdr = false)
    (hk : env.openaiApiKey ≠ "") (ht : env.ttsHttpOk = true) :
    (env.ffmpegExists = false →
       beeline_webhook env hdr body =
         ([Event.ttsRequest env.stubText, Event.ttsWriteFile] ++
            (if env.fifoExists then [Event.auplayCmd] else [Event.logAuplayFailed]),
          Except.error PyErr.popenFileNotFound))
    ∧ (env.ffmpegExists = true →
       (env.telegramConfigured && !env.tgNetworkOk) = false →
       env.recFileExists = false →
       (beeline_webhook env hdr body).2 = Except.error PyErr.recFileNotFound ∧
       Event.sttRequest ∉ (beeline_webhook env hdr body).1 ∧
       Event.tgDocCall ∉ (beeline_webhook env hdr body).1) := by
  refine ⟨fun hf => run_noFfmpeg env hdr body h hk ht hf, fun hf hsend hr => ?_⟩
  rw [run_main env hdr body h hk ht hf hsend, afterWait_noFile env hk hr]
  refine ⟨by simp, ?_, ?_⟩ <;>
    cases hfifo : env.fifoExists <;>
      cases htg : env.telegramConfigured <;>
        cases hw : (procWait env.recorderRuntime (env.recordSeconds + 5)).2 <;>
          simp [hfifo, htg, hw]

set_option maxRecDepth 100000 in
/-- Witness for C5: at envNoFfmpeg the run aborts at the spawn; at
envNoRecFile the run aborts at the transcription file open with no
transcription request and no document upload. -/
theorem c5_witness :
    (authRejected envNoFfmpeg none = false ∧
       beeline_webhook envNoFfmpeg none (some []) =
         ([Event.ttsRequest envNoFfmpeg.stubText, Event.ttsWriteFile] ++
            (if envNoFfmpeg.fifoExists then [Event.auplayCmd] else [Event.logAuplayFailed]),
          Except.error PyErr.popenFileNotFound))
    ∧ (authRejected envNoRecFile none = false ∧
       (beeline_webhook envNoRecFile none (some [])).2 = Except.error PyErr.recFileNotFound ∧
       Event.sttRequest ∉ (beeline_webhook envNoRecFile none (some [])).1 ∧
       Event.tgDocCall ∉ (beeline_webhook envNoRecFile none (some [])).1) :=
  ⟨⟨by decide,
    (c5_amended_recording_failure_fatal envNoFfmpeg none (some [])
        (by decide) (by decide) (by decide)).1 (by decide)⟩,
   ⟨by decide,
    (c5_amended_recording_failure_fatal envNoRecFile none (some [])
        (by decide) (by decide) (by decide)).2 (by decide) (by decide) (by decide)⟩⟩

/-- C7: the recording-completion wait a webhook invocation performs is
bounded by RECORD_SECONDS + 5 seconds (lines 196-197), and whenever the
recorder process outlives that bound during a run that reaches the wait, the
process is killed — the handler never waits unboundedly on the recorder. -/
theorem c7_wait_bounded_and_kills (env : Env) (hdr : Option String) (body : Option Payload) :
    (procWait env.recorderRuntime (env.recordSeconds + 5)).1 ≤ env.recordSeconds + 5
    ∧ (env.recordSeconds + 5 < env.recorderRuntime →
       Event.recordWait (env.recordSeconds + 5) ∈ (beeline_webhook env hdr body).1 →
       Event.recordKill ∈ (beeline_webhook env hdr body).1) := by
  constructor
  · unfold procWait; split <;> omega
  · intro hlong hmem
    by_cases h : authRejected env hdr = true
    · rw [run_auth env hdr body h] at hmem; simp at hmem
    · have h0 : authRejected env hdr = false := by simpa using h
      by_cases hk : env.openaiApiKey = ""
      · rw [run_noKey env hdr body h0 hk] at hmem; simp at hmem
      · cases ht : env.ttsHttpOk with
        | false => rw [run_ttsDown env hdr body h0 hk ht] at hmem; simp at hmem
        | true =>
          cases hf : env.ffmpegExists with
          | false =>
            rw [run_noFfmpeg env hdr body h0 hk ht hf] at hmem
            revert hmem
            cases hfifo : env.fifoExists <;> simp [hfifo]
          | true =>
            cases hs : env.telegramConfigured && !env.tgNetworkOk with
            | true =>
              obtain ⟨htg, hnet⟩ : env.telegramConfigured = true ∧ env.tgNetworkOk = false := by
                simpa [Bool.and_eq_true, Bool.not_eq_true'] using hs
              rw [run_tgDown env hdr body h0 hk ht hf htg hnet] at hmem
              revert hmem
              cases hfifo : env.fifoExists <;> simp [hfifo]
            | false =>
              rw [run_main env hdr body h0 hk ht hf hs]
              have hto : (procWait env.recorderRuntime (env.recordSeconds + 5)).2 = true := by
                unfold procWait
                rw [if_neg (by omega)]
              simp [hto]

set_option maxRecDepth 100000 in
/-- Witness for C7: with a recorder running 100 seconds against a 35-second
bound, the run reaches the wait, the wait lasts at most 35 seconds, and the
kill is issued. -/
theorem c7_witness :
    (procWait envSlowRec.recorderRuntime (envSlowRec.recordSeconds + 5)).1 ≤
        envSlowRec.recordSeconds + 5 ∧
    envSlowRec.recordSeconds + 5 < envSlowRec.recorderRuntime ∧
    Event.recordWait (envSlowRec.recordSeconds + 5) ∈ (beeline_webhook envSlowRec none (some [])).1 ∧
    Event.recordKill ∈ (beeline_webhook envSlowRec none (some [])).1 :=
  ⟨(c7_wait_bounded_and_kills envSlowRec none (some [])).1, by decide, by decide,
   (c7_wait_bounded_and_kills envSlowRec none (some [])).2 (by decide) (by decide)⟩

/-- C3: in every run that performs the recording-completion wait, the
tg_send invocation carrying the summary (caller, callee, timestamp, raw
payload — line 194) occurs strictly earlier in the trace than the wait of
line 196, with no wait event anywhere before it. -/
theorem c3_summary_sent_before_wait (env : Env) (hdr : Option String)
    (body : Option Payload)
    (hmem : Event.recordWait (env.recordSeconds + 5) ∈ (beeline_webhook env hdr body).1) :
    ∃ l1 l2 l3, (beeline_webhook env hdr body).1 =
        l1 ++ Event.tgSendCall (msg1 env (body.getD [])) ::
          (l2 ++ Event.recordWait (env.recordSeconds + 5) :: l3) ∧
      (∀ t, Event.recordWait t ∉ l1) ∧ (∀ t, Event.recordWait t ∉ l2) := by
  by_cases h : authRejected env hdr = true
  · rw [run_auth env hdr body h] at hmem; simp at hmem
  · have h0 : authRejected env hdr = false := by simpa using h
    by_cases hk : env.openaiApiKey = ""
    · rw [run_noKey env hdr body h0 hk] at hmem; simp at hmem
    · cases ht : env.ttsHttpOk with
      | false => rw [run_ttsDown env hdr body h0 hk ht] at hmem; simp at hmem
      | true =>
        cases hf : env.ffmpegExists with
        | false =>
          rw [run_noFfmpeg env hdr body h0 hk ht hf] at hmem
          revert hmem
          cases hfifo : env.fifoExists <;> simp [hfifo]
        | true =>
          cases hs : env.telegramConfigured && !env.tgNetworkOk with
          | true =>
            obtain ⟨htg, hnet⟩ : env.telegramConfigured = true ∧ env.tgNetworkOk = false := by
              simpa [Bool.and_eq_true, Bool.not_eq_true'] using hs
            rw [run_tgDown env hdr body h0 hk ht hf htg hnet] at hmem
            revert hmem
            cases hfifo : env.fifoExists <;> simp [hfifo]
          | false =>
            rw [run_main env hdr body h0 hk ht hf hs]
            refine ⟨[Event.ttsRequest env.stubText, Event.ttsWriteFile] ++
                (if env.fifoExists then [Event.auplayCmd] else [Event.logAuplayFailed]) ++
                [Event.spawnRecorder env.recordSeconds],
              (if env.telegramConfigured then [Event.tgPost (msg1 env (body.getD []))] else []),
              (if (procWait env.recorderRuntime (env.recordSeconds + 5)).2 then
                 [Event.recordKill]
               else []) ++ (afterWaitStage env).1, ?_, ?_, ?_⟩
            · simp
            · intro t; cases hfifo : env.fifoExists <;> simp [hfifo]
            · intro t; cases htg : env.telegramConfigured <;> simp [htg]

set_option maxRecDepth 100000 in
/-- Witness for C3: the healthy run reaches the wait and decomposes with the
summary send-call strictly before the wait event. -/
theorem c3_witness :
    Event.recordWait (envGood.recordSeconds + 5) ∈ (beeline_webhook envGood none (some [])).1 ∧
    ∃ l1 l2 l3, (beeline_webhook envGood none (some [])).1 =
        l1 ++ Event.tgSendCall (msg1 envGood ((some (α := Payload) []).getD [])) ::
          (l2 ++ Event.recordWait (envGood.recordSeconds + 5) :: l3) ∧
      (∀ t, Event.recordWait t ∉ l1) ∧ (∀ t, Event.recordWait t ∉ l2) :=
  ⟨by decide, c3_summary_sent_before_wait envGood none (some []) (by decide)⟩

end Telephony
